import Mathlib

/-!
Shallow embedding of the starship arcade simulation (`src/game.c`, `src/physics.c`,
`src/main.c`, `agent/utils/game_bridge.c`).

Modelling conventions:
* C `float` values are modelled as exact rationals `ℚ`; the spec's non-goal on
  bit-exact floating point supports reasoning over exact arithmetic.
* C `int` values are modelled as `ℤ`; C integer division truncates toward zero,
  which is `Int.tdiv`.
* `sqrtf` is not rational, so code that calls it is parametrised by an oracle
  `sq : ℚ → ℚ` standing for the value `sqrtf` returned; theorems that depend on
  its meaning carry the hypotheses `sq d ≥ 0` and `sq d * sq d = d`.
* `rand()`-derived draws (`(float)rand() / RAND_MAX ∈ [0,1]`) are passed in
  explicitly: `spawn_asteroid` consumes one triple of draws (spawn `y`,
  velocity `x` magnitude, velocity `y` drift).
* The fixed C arrays `asteroids[50]` / `projectiles[10]` are modelled as lists
  of slots; the capacity guards compare the live counts against the `MAX_*`
  constants exactly as the C code does.
-/

namespace AGame

/-- `SCREEN_WIDTH` from `common.h`. -/
def SCREEN_WIDTH : ℚ := 1024

/-- `SCREEN_HEIGHT` from `common.h`. -/
def SCREEN_HEIGHT : ℚ := 768

/-- `MAX_ASTEROIDS` from `common.h` (as the C `int` used in count guards). -/
def MAX_ASTEROIDS : ℤ := 50

/-- `MAX_PROJECTILES` from `common.h`. -/
def MAX_PROJECTILES : ℤ := 10

/-- `STARSHIP_SPEED` from `common.h`. -/
def STARSHIP_SPEED : ℚ := 300

/-- `ASTEROID_MIN_SPEED` from `common.h`. -/
def ASTEROID_MIN_SPEED : ℚ := 50

/-- `ASTEROID_MAX_SPEED` from `common.h`. -/
def ASTEROID_MAX_SPEED : ℚ := 200

/-- `ASTEROID_SIZE` from `common.h`. -/
def ASTEROID_SIZE : ℚ := 40

/-- `PROJECTILE_SPEED` from `common.h`. -/
def PROJECTILE_SPEED : ℚ := 500

/-- `PROJECTILE_WIDTH` from `common.h`. -/
def PROJECTILE_WIDTH : ℚ := 8

/-- `PROJECTILE_HEIGHT` from `common.h`. -/
def PROJECTILE_HEIGHT : ℚ := 3

/-- `Vector2` from `common.h`. -/
structure Vector2 where
  x : ℚ
  y : ℚ
deriving DecidableEq

/-- `Rectangle` from `common.h`. -/
structure Rectangle where
  x : ℚ
  y : ℚ
  w : ℚ
  h : ℚ
deriving DecidableEq

/-- `Entity` from `common.h`. -/
structure Entity where
  position : Vector2
  velocity : Vector2
  rotation : ℚ
  width : ℚ
  height : ℚ
  active : Bool
deriving DecidableEq

/-- `Starship` from `game.h`. -/
structure Starship where
  entity : Entity
deriving DecidableEq

/-- `Asteroid` from `game.h`. -/
structure Asteroid where
  entity : Entity
  size : ℚ
deriving DecidableEq

/-- `Projectile` from `game.h`. -/
structure Projectile where
  entity : Entity
deriving DecidableEq

/-- `GameState` from `game.h`.  The `asset_manager` pointer (graphics only) is
out of scope and omitted. -/
structure GameState where
  starship : Starship
  asteroids : List Asteroid
  projectiles : List Projectile
  asteroid_count : ℤ
  projectile_count : ℤ
  available_shots : ℤ
  last_shot_score : ℤ
  game_over : Bool
  delta_time : ℚ
  score : ℤ
  rl_mode : Bool
  cumulative_reward : ℚ
  last_reward : ℚ
  prev_score : ℤ
  speed_multiplier : ℚ
  spawn_accumulator : ℚ
deriving DecidableEq

/-- `random_float(min, max)` from `game.c`, with the draw
`r = (float)rand() / RAND_MAX` made explicit. -/
def random_float (r mn mx : ℚ) : ℚ :=
  mn + r * (mx - mn)

/-- `physics_update_entity` from `physics.c`. -/
def physics_update_entity (e : Entity) (delta_time : ℚ) : Entity :=
  if !e.active then e
  else { e with position := ⟨e.position.x + e.velocity.x * delta_time,
                            e.position.y + e.velocity.y * delta_time⟩ }

/-- `physics_apply_boundary_constraints` from `physics.c` (four sequential
clamping branches, in source order). -/
def physics_apply_boundary_constraints (e : Entity) (min_x max_x min_y max_y : ℚ) : Entity :=
  if !e.active then e
  else
    let px := if e.position.x < min_x then min_x else e.position.x
    let px := if px > max_x - e.width then max_x - e.width else px
    let py := if e.position.y < min_y then min_y else e.position.y
    let py := if py > max_y - e.height then max_y - e.height else py
    { e with position := ⟨px, py⟩ }

/-- `physics_check_collision` from `physics.c`: strict AABB overlap test. -/
def physics_check_collision (a b : Rectangle) : Bool :=
  decide (a.x < b.x + b.w) && decide (a.x + a.w > b.x) &&
  decide (a.y < b.y + b.h) && decide (a.y + a.h > b.y)

/-- `physics_entity_to_rectangle` from `physics.c`. -/
def physics_entity_to_rectangle (e : Entity) : Rectangle :=
  { x := e.position.x, y := e.position.y, w := e.width, h := e.height }

/-- `physics_entities_collide` from `physics.c`. -/
def physics_entities_collide (a b : Entity) : Bool :=
  a.active && b.active &&
    physics_check_collision (physics_entity_to_rectangle a) (physics_entity_to_rectangle b)

/-- `physics_clamp_entity_position` from `physics.c`. -/
def physics_clamp_entity_position (e : Entity) (screen_width screen_height : ℚ) : Entity :=
  if !e.active then e
  else physics_apply_boundary_constraints e 0 screen_width 0 screen_height

/-- `starship_init` from `game.c`. -/
def starship_init : Starship :=
  { entity := { position := ⟨100, SCREEN_HEIGHT / 2⟩, velocity := ⟨0, 0⟩,
                rotation := 0, width := 70, height := 30, active := true } }

/-- `starship_update` from `game.c`. -/
def starship_update (s : Starship) (delta_time : ℚ) : Starship :=
  if !s.entity.active then s
  else
    let e := physics_update_entity s.entity delta_time
    { entity := physics_clamp_entity_position e SCREEN_WIDTH SCREEN_HEIGHT }

/-- `asteroid_init` from `game.c`; `r1` is the draw for the horizontal speed
magnitude, `r2` the draw for the vertical drift. -/
def asteroid_init (x y size base_speed_multiplier r1 r2 : ℚ) : Asteroid :=
  { entity := { position := ⟨x, y⟩,
                velocity := ⟨-(random_float r1 ASTEROID_MIN_SPEED ASTEROID_MAX_SPEED)
                                * base_speed_multiplier,
                             random_float r2 (-50) 50 * base_speed_multiplier⟩,
                rotation := 0, width := size, height := size, active := true },
    size := size }

/-- `asteroid_update` from `game.c`: integrate, spin, then bounce the vertical
velocity when the post-integration `y` is outside `[0, SCREEN_HEIGHT]`. -/
def asteroid_update (a : Asteroid) (delta_time : ℚ) : Asteroid :=
  if !a.entity.active then a
  else
    let e := physics_update_entity a.entity delta_time
    let e := { e with rotation := e.rotation + 50 * delta_time }
    let e :=
      if e.position.y < 0 ∨ e.position.y > SCREEN_HEIGHT then
        { e with velocity := ⟨e.velocity.x, -e.velocity.y⟩ }
      else e
    { a with entity := e }

/-- `projectile_init` from `game.c`. -/
def projectile_init (x y speed_multiplier : ℚ) : Projectile :=
  { entity := { position := ⟨x, y⟩,
                velocity := ⟨PROJECTILE_SPEED * speed_multiplier, 0⟩,
                rotation := 0, width := PROJECTILE_WIDTH, height := PROJECTILE_HEIGHT,
                active := true } }

/-- `projectile_update` from `game.c`. -/
def projectile_update (p : Projectile) (delta_time : ℚ) : Projectile :=
  if !p.entity.active then p
  else { entity := physics_update_entity p.entity delta_time }

/-- `game_state_create` from `game.c`.  `malloc` leaves the pool slots with
arbitrary contents, after which only the `active` flags are cleared; the
pre-existing slot contents are therefore parameters. -/
def game_state_create (a0 : List Asteroid) (p0 : List Projectile) : GameState :=
  { starship := starship_init,
    asteroids := a0.map (fun a => { a with entity.active := false }),
    projectiles := p0.map (fun p => { p with entity.active := false }),
    asteroid_count := 0, projectile_count := 0,
    available_shots := 3, last_shot_score := 0,
    game_over := false, delta_time := 0, score := 0,
    rl_mode := false, cumulative_reward := 0, last_reward := 0, prev_score := 0,
    speed_multiplier := 1, spawn_accumulator := 0 }

/-- First-fit slot scan shared by `spawn_asteroid`: replace the first slot
whose `active` flag is clear, or report `none` when every slot is active
(the C loop then falls through without spawning). -/
def replaceFirstInactiveA : List Asteroid → Asteroid → Option (List Asteroid)
  | [], _ => none
  | a :: tl, fresh =>
    if !a.entity.active then some (fresh :: tl)
    else (replaceFirstInactiveA tl fresh).map (a :: ·)

/-- First-fit slot scan of `spawn_projectile`. -/
def replaceFirstInactiveP : List Projectile → Projectile → Option (List Projectile)
  | [], _ => none
  | p :: tl, fresh =>
    if !p.entity.active then some (fresh :: tl)
    else (replaceFirstInactiveP tl fresh).map (p :: ·)

/-- The asteroid built by the body of `spawn_asteroid` (`game.c` lines
363-373): the score-scaled speed multiplier (capped at 2.5, with
`state->score / 10` being C integer division `Int.tdiv`) combined with the
global multiplier, a random spawn height, and `asteroid_init` at the right
edge.  `r = (ry, r1, r2)` are the three `rand()` draws (spawn height,
horizontal speed, vertical drift). -/
def freshAsteroid (state : GameState) (r : ℚ × ℚ × ℚ) : Asteroid :=
  let base_speed_multiplier : ℚ := 1 + ((Int.tdiv state.score 10 : ℤ) : ℚ) * (1/10)
  let base_speed_multiplier :=
    if base_speed_multiplier > 5/2 then (5/2 : ℚ) else base_speed_multiplier
  let total_speed_multiplier := base_speed_multiplier * state.speed_multiplier
  let y := random_float r.1 0 (SCREEN_HEIGHT - ASTEROID_SIZE)
  asteroid_init SCREEN_WIDTH y ASTEROID_SIZE total_speed_multiplier r.2.1 r.2.2

/-- `spawn_asteroid` from `game.c`. -/
def spawn_asteroid (state : GameState) (r : ℚ × ℚ × ℚ) : GameState :=
  if state.asteroid_count ≥ MAX_ASTEROIDS then state
  else
    match replaceFirstInactiveA state.asteroids (freshAsteroid state r) with
    | none => state
    | some l => { state with asteroids := l, asteroid_count := state.asteroid_count + 1 }

/-- The projectile built by the body of `spawn_projectile` (`game.c` lines
418-421): spawned from the right side of the starship, centered
vertically. -/
def freshProjectile (state : GameState) : Projectile :=
  let x := state.starship.entity.position.x + state.starship.entity.width
  let y := state.starship.entity.position.y + state.starship.entity.height / 2
             - PROJECTILE_HEIGHT / 2
  projectile_init x y state.speed_multiplier

/-- `spawn_projectile` from `game.c`. -/
def spawn_projectile (state : GameState) : GameState :=
  if state.projectile_count ≥ MAX_PROJECTILES then state
  else if state.available_shots ≤ 0 then state
  else
    match replaceFirstInactiveP state.projectiles (freshProjectile state) with
    | none => state
    | some l => { state with projectiles := l,
                             projectile_count := state.projectile_count + 1,
                             available_shots := state.available_shots - 1 }

/-!  The phases of `game_state_update`, in source order. -/

/-- One slot of the projectile loop of `game_state_update` (lines 77-87):
move an active projectile and retire it past the right edge.  Returns the new
slot and the number of retirements (0 or 1). -/
def projMoveSlot (delta_time : ℚ) (p : Projectile) : Projectile × ℤ :=
  if p.entity.active then
    let p := projectile_update p delta_time
    if p.entity.position.x > SCREEN_WIDTH then
      ({ p with entity.active := false }, 1)
    else (p, 0)
  else (p, 0)

/-- The projectile loop of `game_state_update`: all slots, summing
retirements. -/
def updateProjectiles (delta_time : ℚ) : List Projectile → List Projectile × ℤ
  | [] => ([], 0)
  | p :: tl =>
    ((projMoveSlot delta_time p).1 :: (updateProjectiles delta_time tl).1,
     (projMoveSlot delta_time p).2 + (updateProjectiles delta_time tl).2)

/-- One slot of the asteroid loop of `game_state_update` (lines 90-100):
move an active asteroid and retire it once fully past the left edge.  Returns
the new slot and the number of retirements (0 or 1); each retirement also
scores one point. -/
def astMoveSlot (delta_time : ℚ) (a : Asteroid) : Asteroid × ℤ :=
  if a.entity.active then
    let a := asteroid_update a delta_time
    if a.entity.position.x < -a.size then
      ({ a with entity.active := false }, 1)
    else (a, 0)
  else (a, 0)

/-- The asteroid loop of `game_state_update`: all slots, summing
retirements. -/
def updateAsteroids (delta_time : ℚ) : List Asteroid → List Asteroid × ℤ
  | [] => ([], 0)
  | a :: tl =>
    ((astMoveSlot delta_time a).1 :: (updateAsteroids delta_time tl).1,
     (astMoveSlot delta_time a).2 + (updateAsteroids delta_time tl).2)

/-- The extra-shot award of `game_state_update` (lines 102-106).  Both
divisions are C `int` division (`Int.tdiv`). -/
def shotBonusStep (state : GameState) : GameState :=
  if state.score > 0 ∧ Int.tdiv state.score 50 > Int.tdiv state.last_shot_score 50 then
    { state with available_shots := state.available_shots + 1,
                 last_shot_score := state.score }
  else state

/-- The spawn rate of `game_state_update` (lines 110-113):
`0.5 + score / 100.0f`, capped at `2.0`. -/
def spawn_rate (score : ℤ) : ℚ :=
  let base_spawn_rate : ℚ := 1/2
  let score_bonus : ℚ := (score : ℚ) / 100
  let rate := base_spawn_rate + score_bonus
  if rate > 2 then 2 else rate

/-- The body of the `while (spawn_accumulator >= 1.0f)` loop, iterated `n`
times: each pass spawns one asteroid (consuming one triple of draws) and
subtracts `1.0` from the accumulator. -/
def spawnLoop (rs : List (ℚ × ℚ × ℚ)) : ℕ → GameState → GameState
  | 0, state => state
  | n + 1, state =>
    let state := spawn_asteroid state (rs.headD ⟨0, 0, 0⟩)
    spawnLoop rs.tail n { state with spawn_accumulator := state.spawn_accumulator - 1 }

/-- The number of passes of the `while (spawn_accumulator >= 1.0f)` loop for
a given accumulator value: each pass subtracts exactly `1.0`, so the loop
runs `⌊acc⌋` times (0 when the accumulator is below 1). -/
def spawnCount (acc : ℚ) : ℕ :=
  (Rat.floor acc).toNat

/-- The spawning phase of `game_state_update` (lines 108-121): accumulate
`dt × rate` and spawn once per unit. -/
def spawnPhase (rs : List (ℚ × ℚ × ℚ)) (state : GameState) (delta_time : ℚ) : GameState :=
  let acc := state.spawn_accumulator + delta_time * spawn_rate state.score
  spawnLoop rs (spawnCount acc) { state with spawn_accumulator := acc }

/-- The body of the asteroid-asteroid collision check of `game_state_update`
(lines 130-167), for one ordered pair `(i, j)` with `i < j`: on AABB overlap,
bounce along the position-difference normal when approaching, then separate
overlapping pairs.  `sq` stands for `sqrtf`. -/
def collidePairBody (sq : ℚ → ℚ) (ai aj : Asteroid) : Asteroid × Asteroid :=
  if physics_entities_collide ai.entity aj.entity then
    let dx0 := aj.entity.position.x - ai.entity.position.x
    let dy0 := aj.entity.position.y - ai.entity.position.y
    let distance := sq (dx0 * dx0 + dy0 * dy0)
    if distance > 0 then
      let dx := dx0 / distance
      let dy := dy0 / distance
      let dvx := aj.entity.velocity.x - ai.entity.velocity.x
      let dvy := aj.entity.velocity.y - ai.entity.velocity.y
      let dvn := dvx * dx + dvy * dy
      if dvn < 0 then
        let ai1 := { ai with entity.velocity :=
          ⟨ai.entity.velocity.x + dvn * dx, ai.entity.velocity.y + dvn * dy⟩ }
        let aj1 := { aj with entity.velocity :=
          ⟨aj.entity.velocity.x - dvn * dx, aj.entity.velocity.y - dvn * dy⟩ }
        let overlap := (ai.size / 2 + aj.size / 2) - distance
        if overlap > 0 then
          let separation := overlap / 2 + 1/2
          ({ ai1 with entity.position :=
              ⟨ai1.entity.position.x - dx * separation, ai1.entity.position.y - dy * separation⟩ },
           { aj1 with entity.position :=
              ⟨aj1.entity.position.x + dx * separation, aj1.entity.position.y + dy * separation⟩ })
        else (ai1, aj1)
      else (ai, aj)
    else (ai, aj)
  else (ai, aj)

/-- The inner `j` loop of the asteroid-asteroid collision check: slot `i`
(carried as `ai`) against every later slot, threading updates of `ai`
through.  Slots with a clear `active` flag are skipped (`continue`). -/
def collideInner (sq : ℚ → ℚ) (ai : Asteroid) : List Asteroid → Asteroid × List Asteroid
  | [] => (ai, [])
  | aj :: tl =>
    if !aj.entity.active then
      ((collideInner sq ai tl).1, aj :: (collideInner sq ai tl).2)
    else
      let hit := collidePairBody sq ai aj
      ((collideInner sq hit.1 tl).1, hit.2 :: (collideInner sq hit.1 tl).2)

/-- The outer `i` loop of the asteroid-asteroid collision check
(lines 124-169).  The inner loop only rewrites slots in place, so the slot
list keeps its length and the loop terminates; the length argument is inline
in `decreasing_by`. -/
def collidePhase (sq : ℚ → ℚ) : List Asteroid → List Asteroid
  | [] => []
  | ai :: tl =>
    if !ai.entity.active then ai :: collidePhase sq tl
    else
      (collideInner sq ai tl).1 :: collidePhase sq (collideInner sq ai tl).2
termination_by l => l.length
decreasing_by
  · simp
  · have h : ∀ (a : Asteroid) (l : List Asteroid),
        (collideInner sq a l).2.length = l.length := by
      intro a l
      induction l generalizing a with
      | nil => simp [collideInner]
      | cons aj tl2 ih =>
        by_cases hj : (!aj.entity.active) = true <;>
          simp [collideInner, hj, ih]
    simp [h]

/-- The inner `j` loop of the projectile-asteroid collision check
(lines 175-187): scan for the first active asteroid overlapping the
projectile entity `p`; on a hit deactivate that asteroid and stop
(`break`). -/
def projAstScan (p : Entity) : List Asteroid → Option (List Asteroid)
  | [] => none
  | a :: tl =>
    if !a.entity.active then (projAstScan p tl).map (a :: ·)
    else if physics_entities_collide p a.entity then
      some ({ a with entity.active := false } :: tl)
    else (projAstScan p tl).map (a :: ·)

/-- One projectile of the projectile-asteroid collision check: on the first
overlapping active asteroid, both entities are retired, both live counts
drop by one and the score gains the 10-point bonus. -/
def projCollideStep (p : Projectile) (asts : List Asteroid) (pc ac sc : ℤ) :
    Projectile × List Asteroid × ℤ × ℤ × ℤ :=
  if !p.entity.active then (p, asts, pc, ac, sc)
  else
    match projAstScan p.entity asts with
    | none => (p, asts, pc, ac, sc)
    | some asts1 => ({ p with entity.active := false }, asts1, pc - 1, ac - 1, sc + 10)

/-- The outer `i` loop of the projectile-asteroid collision check
(lines 172-188), threading the asteroid list and the counters. -/
def projCollidePhase : List Projectile → List Asteroid → ℤ → ℤ → ℤ →
    List Projectile × List Asteroid × ℤ × ℤ × ℤ
  | [], asts, pc, ac, sc => ([], asts, pc, ac, sc)
  | p :: ps, asts, pc, ac, sc =>
    let s1 := projCollideStep p asts pc ac sc
    let s2 := projCollidePhase ps s1.2.1 s1.2.2.1 s1.2.2.2.1 s1.2.2.2.2
    (s1.1 :: s2.1, s2.2.1, s2.2.2.1, s2.2.2.2.1, s2.2.2.2.2)

/-- The starship collision check of `game_state_update` (lines 191-199): the
terminal flag is set as soon as any active asteroid overlaps the ship. -/
def starshipCollisionPhase (state : GameState) : GameState :=
  if state.asteroids.any (fun a => physics_entities_collide state.starship.entity a.entity) then
    { state with game_over := true }
  else state

/-- `game_state_update` from `game.c`: early return when terminal, then the
phases in source order.  `sq` stands for `sqrtf`, `rs` for the stream of
`rand()` draw triples consumed by spawns. -/
def game_state_update (sq : ℚ → ℚ) (rs : List (ℚ × ℚ × ℚ))
    (state : GameState) (delta_time : ℚ) : GameState :=
  if state.game_over then state
  else
    let state := { state with delta_time := delta_time }
    let state := { state with starship := starship_update state.starship delta_time }
    let ups := updateProjectiles delta_time state.projectiles
    let state := { state with projectiles := ups.1,
                              projectile_count := state.projectile_count - ups.2 }
    let uas := updateAsteroids delta_time state.asteroids
    let state := { state with asteroids := uas.1,
                              asteroid_count := state.asteroid_count - uas.2,
                              score := state.score + uas.2 }
    let state := shotBonusStep state
    let state := spawnPhase rs state delta_time
    let state := { state with asteroids := collidePhase sq state.asteroids }
    let pcol := projCollidePhase state.projectiles state.asteroids
                  state.projectile_count state.asteroid_count state.score
    let state := { state with projectiles := pcol.1, asteroids := pcol.2.1,
                              projectile_count := pcol.2.2.1, asteroid_count := pcol.2.2.2.1,
                              score := pcol.2.2.2.2 }
    starshipCollisionPhase state

/-- `game_state_apply_rl_action` from `game.c`. -/
def game_state_apply_rl_action (state : GameState) (action : ℤ) : GameState :=
  let speed := STARSHIP_SPEED * state.speed_multiplier
  let v : Vector2 :=
    if action = 0 then ⟨0, -speed⟩
    else if action = 1 then ⟨0, speed⟩
    else if action = 2 then ⟨-speed, 0⟩
    else if action = 3 then ⟨speed, 0⟩
    else ⟨0, 0⟩
  { state with starship.entity.velocity := v }

/-- `game_state_calculate_reward` from `game.c`: returns the reward and the
state with `prev_score`, `last_reward` and `cumulative_reward` updated. -/
def game_state_calculate_reward (state : GameState) : ℚ × GameState :=
  let reward : ℚ := 0
  let reward := if !state.game_over then reward + 1 else reward
  let reward := if state.game_over then reward - 100 else reward
  let score_diff := state.score - state.prev_score
  let reward := if score_diff > 0 then reward + (score_diff : ℚ) * 10 else reward
  (reward, { state with prev_score := state.score,
                        last_reward := reward,
                        cumulative_reward := state.cumulative_reward + reward })

/-- One controller-driven tick of `SDL_AppIterate` (`main.c` lines 128-137)
for an ordinary action (not `-1`/`-2`): apply the action, update, then
compute the reward. -/
def rlTick (sq : ℚ → ℚ) (rs : List (ℚ × ℚ × ℚ))
    (state : GameState) (action : ℤ) (delta_time : ℚ) : ℚ × GameState :=
  let state := game_state_apply_rl_action state action
  let state := game_state_update sq rs state delta_time
  game_state_calculate_reward state

/-!  The control bridge (`agent/utils/game_bridge.c`) and the
controller-driven branch of `SDL_AppIterate` (`main.c`). -/

/-- The mutable connection state of the static `GameBridge` (only the
`connected` flag matters to the action path; sockets are the transport,
abstracted behind the `recv`/`send` outcomes below). -/
structure GameBridge where
  connected : Bool
deriving DecidableEq

/-- `bridge_receive_action` from `game_bridge.c`: `bytes` is the byte count
`recv` reported (`≤ 0` covers both a closed peer and a receive error) and
`action` is the decoded 4-byte integer when `bytes > 0`. -/
def bridge_receive_action (b : GameBridge) (bytes action : ℤ) : GameBridge × ℤ :=
  if !b.connected then (b, -2)
  else if bytes ≤ 0 then ({ connected := false }, -2)
  else (b, action)

/-- The three `SDL_AppResult` outcomes; `success` terminates the app loop
normally, `failure` terminates it with an error. -/
inductive AppResult where
  | cont
  | success
  | failure
deriving DecidableEq

/-- The controller-driven branch of `SDL_AppIterate` (`main.c` lines
110-172): receive an action; on `-2` stop the run at once; on `-1` rebuild
the game state (fresh pools `a0`/`p0`, the configured multiplier `spd`);
otherwise apply the action and run one update.  Either way the reward is then
computed and the state sent; a send failure (`sendOk = false`) also stops the
run. -/
def appIterateRl (sq : ℚ → ℚ) (rs : List (ℚ × ℚ × ℚ))
    (b : GameBridge) (bytes actVal : ℤ)
    (state : GameState) (delta_time : ℚ) (spd : ℚ)
    (a0 : List Asteroid) (p0 : List Projectile) (sendOk : Bool) :
    AppResult × GameBridge × GameState :=
  let rcv := bridge_receive_action b bytes actVal
  let b := rcv.1
  let action := rcv.2
  if action = -2 then (.success, b, state)
  else
    let state :=
      if action = -1 then
        let state := game_state_create a0 p0
        let state := { state with rl_mode := true }
        { state with speed_multiplier := spd }
      else
        let state := game_state_apply_rl_action state action
        game_state_update sq rs state delta_time
    let state := (game_state_calculate_reward state).2
    if sendOk then (.cont, b, state) else (.success, b, state)

/-!  Analysis definitions (measurement functions used by the theorem
statements) and concrete fixtures used by the witnesses. -/

/-- Number of asteroid slots whose `active` flag is set (as the C `int` the
live count is compared against). -/
def activeCountA (l : List Asteroid) : ℤ :=
  ((l.filter (fun a => a.entity.active)).length : ℤ)

/-- Number of projectile slots whose `active` flag is set. -/
def activeCountP (l : List Projectile) : ℤ :=
  ((l.filter (fun p => p.entity.active)).length : ℤ)

/-- The live-count invariant of the spec: each live count equals the number
of slots with the `active` flag set. -/
abbrev CountInv (state : GameState) : Prop :=
  state.asteroid_count = activeCountA state.asteroids ∧
  state.projectile_count = activeCountP state.projectiles

/-- Component of a velocity along the unit vector obtained by dividing the
position difference `(dx, dy)` by the length `d`. -/
def velAlong (v : Vector2) (dx dy d : ℚ) : ℚ :=
  v.x * (dx / d) + v.y * (dy / d)

/-- Component of a velocity along the perpendicular (tangential) direction
`(-dy/d, dx/d)`. -/
def velPerp (v : Vector2) (dx dy d : ℚ) : ℚ :=
  v.x * (-(dy / d)) + v.y * (dx / d)

/-- The per-tick reward exactly as the spec words it, with the −100 term
keyed to the tick that made the episode terminal (`pre` is the state before
the tick, `post` the state after `game_state_update`).  This is the spec-side
definition kept for comparison against `game_state_calculate_reward`. -/
def specRewardPerTick (pre post : GameState) : ℚ :=
  (if !post.game_over then 1 else 0) +
  (if post.game_over ∧ !pre.game_over then -100 else 0) +
  (if post.score - pre.prev_score > 0 then ((post.score - pre.prev_score : ℤ) : ℚ) * 10 else 0)

/-- Witness fixture: an inactive asteroid slot. -/
def idleAst : Asteroid :=
  { entity := { position := ⟨0, 0⟩, velocity := ⟨0, 0⟩, rotation := 0,
                width := 40, height := 40, active := false }, size := 40 }

/-- Witness fixture: an active asteroid slot at the origin. -/
def liveAst : Asteroid :=
  { idleAst with entity.active := true }

/-- Witness fixture: an inactive projectile slot. -/
def idleProj : Projectile :=
  { entity := { position := ⟨0, 0⟩, velocity := ⟨0, 0⟩, rotation := 0,
                width := 8, height := 3, active := false } }

/-- Witness fixture: an active projectile slot at the origin. -/
def liveProj : Projectile :=
  { idleProj with entity.active := true }

/-- Witness fixture: a freshly created state with empty pools. -/
def baseState : GameState :=
  game_state_create [] []

/-- Witness fixture: an empty 50-slot pool with the accumulator at 1/2,
about to absorb a slow tick. -/
def slowTickState : GameState :=
  { baseState with asteroids := List.replicate 50 idleAst, spawn_accumulator := 1/2 }

/-- Witness fixture: the `sqrtf` oracle returning 5 on input 25. -/
def sqW : ℚ → ℚ := fun q => if q = 25 then 5 else 0

/-- Witness fixture: an active asteroid at the origin moving up-right. -/
def aiW : Asteroid := { liveAst with entity.velocity := ⟨1, 1⟩ }

/-- Witness fixture: an active asteroid at `(3, 4)` moving down-left, so the
pair approaches along the 3-4-5 normal. -/
def ajW : Asteroid := { liveAst with entity.position := ⟨3, 4⟩, entity.velocity := ⟨-1, -1⟩ }

/-- Witness fixture: an active obstacle away from the witness projectile. -/
def astNearW : Asteroid := { liveAst with entity.position := ⟨0, 300⟩ }

/-- Witness fixture: the first obstacle in scan order overlapping the
witness projectile. -/
def astHitW : Asteroid := { liveAst with entity.position := ⟨600, 370⟩ }

/-- Witness fixture: a later obstacle that also overlaps but must survive
the tick. -/
def astHit2W : Asteroid := { liveAst with entity.position := ⟨600, 390⟩ }

/-- Witness fixture: an active projectile overlapping `astHitW` and
`astHit2W`. -/
def projW : Projectile := { liveProj with entity.position := ⟨600, 380⟩ }

/-- Witness fixture: a freshly created state already marked terminal. -/
def termState : GameState :=
  { baseState with game_over := true }

/-- Witness fixture: a state whose pools are completely full of active
entries. -/
def fullState : GameState :=
  { baseState with
      asteroids := List.replicate 50 liveAst, asteroid_count := 50,
      projectiles := List.replicate 10 liveProj, projectile_count := 10 }

/-- Witness fixture: one active projectile overlapping one active obstacle,
so the next tick scores the 10-point destruction bonus. -/
def shootState : GameState :=
  { baseState with
      projectiles := [{ liveProj with entity.position := ⟨600, 380⟩ }],
      projectile_count := 1,
      asteroids := [{ liveAst with entity.position := ⟨600, 370⟩ }],
      asteroid_count := 1 }

/-!  Helper lemmas. -/

theorem physics_update_entity_velocity (e : Entity) (dt : ℚ) :
    (physics_update_entity e dt).velocity = e.velocity := by
  rw [physics_update_entity]; split <;> rfl

theorem physics_update_entity_active (e : Entity) (dt : ℚ) :
    (physics_update_entity e dt).active = e.active := by
  rw [physics_update_entity]; split <;> rfl

theorem asteroid_update_size (a : Asteroid) (dt : ℚ) :
    (asteroid_update a dt).size = a.size := by
  by_cases h : (!a.entity.active) = true <;> simp [asteroid_update, h]

theorem spawn_asteroid_prev_score (st : GameState) (r : ℚ × ℚ × ℚ) :
    (spawn_asteroid st r).prev_score = st.prev_score := by
  simp only [spawn_asteroid]
  split
  · rfl
  · split <;> rfl

theorem spawnLoop_prev_score (rs : List (ℚ × ℚ × ℚ)) (n : ℕ) (st : GameState) :
    (spawnLoop rs n st).prev_score = st.prev_score := by
  induction n generalizing rs st with
  | zero => rfl
  | succ n ih => rw [spawnLoop, ih]; simp [spawn_asteroid_prev_score]

theorem spawnPhase_prev_score (rs : List (ℚ × ℚ × ℚ)) (st : GameState) (dt : ℚ) :
    (spawnPhase rs st dt).prev_score = st.prev_score := by
  rw [spawnPhase, spawnLoop_prev_score]

theorem shotBonusStep_prev_score (st : GameState) :
    (shotBonusStep st).prev_score = st.prev_score := by
  rw [shotBonusStep]; split <;> rfl

theorem starshipCollisionPhase_prev_score (st : GameState) :
    (starshipCollisionPhase st).prev_score = st.prev_score := by
  rw [starshipCollisionPhase]; split <;> rfl

theorem game_state_update_prev_score (sq : ℚ → ℚ) (rs : List (ℚ × ℚ × ℚ))
    (st : GameState) (dt : ℚ) :
    (game_state_update sq rs st dt).prev_score = st.prev_score := by
  rw [game_state_update]
  split
  · rfl
  · rw [starshipCollisionPhase_prev_score]
    simp only []
    rw [spawnPhase_prev_score, shotBonusStep_prev_score]

theorem asteroid_update_active (a : Asteroid) (dt : ℚ) :
    (asteroid_update a dt).entity.active = a.entity.active := by
  by_cases h : (!a.entity.active) = true
  · simp [asteroid_update, h]
  · simp only [Bool.not_eq_true'] at h
    simp [asteroid_update, h, physics_update_entity]
    split <;> simp

/-!  Claim theorems. -/

/-- Claim C10: during `asteroid_update`, when the post-integration `y` is
below 0 or above the arena height the vertical velocity component is negated
(and the horizontal one kept); otherwise the velocity is unchanged; and
`asteroid_update` never clears the `active` flag, so obstacles are never
retired by leaving the arena vertically. -/
theorem asteroid_vertical_bounce (a : Asteroid) (dt : ℚ) :
    ((asteroid_update a dt).entity.active = a.entity.active) ∧
    (a.entity.active = true →
      (((physics_update_entity a.entity dt).position.y < 0 ∨
        (physics_update_entity a.entity dt).position.y > SCREEN_HEIGHT) →
          (asteroid_update a dt).entity.velocity.y = -a.entity.velocity.y ∧
          (asteroid_update a dt).entity.velocity.x = a.entity.velocity.x) ∧
      (¬((physics_update_entity a.entity dt).position.y < 0 ∨
         (physics_update_entity a.entity dt).position.y > SCREEN_HEIGHT) →
          (asteroid_update a dt).entity.velocity = a.entity.velocity)) := by
  refine ⟨asteroid_update_active a dt, fun ha => ⟨fun hb => ?_, fun hb => ?_⟩⟩
  · rw [asteroid_update]
    simp only [ha, Bool.not_true, Bool.false_eq_true, if_false]
    rw [if_pos (by simpa using hb)]
    constructor <;> simp [physics_update_entity_velocity]
  · rw [asteroid_update]
    simp only [ha, Bool.not_true, Bool.false_eq_true, if_false]
    rw [if_neg (by simpa using hb)]
    simp [physics_update_entity_velocity]

/-- Claim C10 witness: an active asteroid integrated to `y = -10` gets its
vertical velocity negated and keeps its `active` flag. -/
theorem asteroid_vertical_bounce_witness :
    (asteroid_update { liveAst with entity.position := ⟨0, -10⟩ } 0).entity.active = true ∧
    (asteroid_update { liveAst with entity.position := ⟨0, -10⟩ } 0).entity.velocity.y = -0 := by
  have h := asteroid_vertical_bounce { liveAst with entity.position := ⟨0, -10⟩ } 0
  refine ⟨(h.1).trans rfl, ?_⟩
  have hb := (h.2 rfl).1 (by left; norm_num [physics_update_entity, liveAst, idleAst])
  rw [hb.1]
  rfl

/-- Claim C9: an active obstacle whose post-update `x` is below the negative
of its size is retired by the asteroid loop with one point scored: the slot
itself is deactivated and counted, the loop maps slots independently, and the
loop total (which `game_state_update` both subtracts from the live count and
adds to the score) is exactly the number of slots retiring this tick. -/
theorem dodge_left_exit (a : Asteroid) (dt : ℚ) (l : List Asteroid) :
    (a.entity.active = true →
      (asteroid_update a dt).entity.position.x < -a.size →
      astMoveSlot dt a = ({ asteroid_update a dt with entity.active := false }, 1)) ∧
    ((updateAsteroids dt l).1 = l.map (fun x => (astMoveSlot dt x).1)) ∧
    ((updateAsteroids dt l).2 =
      ((l.countP (fun x =>
          x.entity.active && decide ((asteroid_update x dt).entity.position.x < -x.size))) : ℤ)) := by
  refine ⟨fun ha hx => ?_, ?_, ?_⟩
  · rw [astMoveSlot, if_pos ha, if_pos (by rw [asteroid_update_size]; exact hx)]
  · induction l with
    | nil => simp [updateAsteroids]
    | cons b tl ih => simp [updateAsteroids, ih]
  · induction l with
    | nil => simp [updateAsteroids]
    | cons b tl ih =>
      rw [updateAsteroids]
      by_cases hb : b.entity.active = true
      · by_cases hx : (asteroid_update b dt).entity.position.x < -b.size
        · simp [astMoveSlot, hb, asteroid_update_size, hx, List.countP_cons, ih]
          omega
        · simp [astMoveSlot, hb, asteroid_update_size, hx, List.countP_cons, ih]
      · simp [astMoveSlot, hb, List.countP_cons, ih]

/-- Claim C9 witness: a concrete active asteroid at `x = -50` (size 40) is
retired and contributes one scored point. -/
theorem dodge_left_exit_witness :
    astMoveSlot 0 { liveAst with entity.position := ⟨-50, 100⟩ } =
      ({ asteroid_update { liveAst with entity.position := ⟨-50, 100⟩ } 0 with
           entity.active := false }, 1) := by
  refine (dodge_left_exit { liveAst with entity.position := ⟨-50, 100⟩ } 0 []).1 rfl ?_
  norm_num [asteroid_update, physics_update_entity, liveAst, idleAst, SCREEN_HEIGHT]

/-- Claim C8: spawning into a full pool is a silent no-op: with the live
count matching 50 active obstacle entries (resp. 10 active projectile
entries) `spawn_asteroid` (resp. `spawn_projectile`) returns the state
unchanged. -/
theorem spawn_full_pool_noop (st : GameState) (r : ℚ × ℚ × ℚ) :
    (st.asteroid_count = activeCountA st.asteroids → activeCountA st.asteroids = 50 →
      spawn_asteroid st r = st) ∧
    (st.projectile_count = activeCountP st.projectiles → activeCountP st.projectiles = 10 →
      spawn_projectile st = st) := by
  constructor
  · intro h1 h2
    have hge : st.asteroid_count ≥ MAX_ASTEROIDS := by
      rw [h1, h2]; norm_num [MAX_ASTEROIDS]
    rw [spawn_asteroid, if_pos hge]
  · intro h1 h2
    have hge : st.projectile_count ≥ MAX_PROJECTILES := by
      rw [h1, h2]; norm_num [MAX_PROJECTILES]
    rw [spawn_projectile, if_pos hge]

/-- Claim C8 witness: both spawns are no-ops on a concrete state with 50
active obstacles and 10 active projectiles. -/
theorem spawn_full_pool_noop_witness :
    spawn_asteroid fullState (0, 0, 0) = fullState ∧ spawn_projectile fullState = fullState := by
  have h := spawn_full_pool_noop fullState (0, 0, 0)
  exact ⟨h.1 (by decide) (by decide), h.2 (by decide) (by decide)⟩

/-- Claim C3: the extra-shot award fires exactly when the truncated quotient
`score / 50` exceeds the quotient of the recorded score, granting +1
ammunition and recording the current score, and does nothing otherwise;
crossing 49 → 50 grants one shot, after which scores in `[50, 100)` grant
nothing further. -/
theorem ammo_bonus_every_50 (st : GameState) :
    (0 ≤ st.last_shot_score →
      Int.tdiv st.score 50 > Int.tdiv st.last_shot_score 50 →
      shotBonusStep st = { st with available_shots := st.available_shots + 1,
                                   last_shot_score := st.score }) ∧
    (¬(Int.tdiv st.score 50 > Int.tdiv st.last_shot_score 50) → shotBonusStep st = st) ∧
    (st.score = 50 → Int.tdiv st.last_shot_score 50 = 0 →
      shotBonusStep st = { st with available_shots := st.available_shots + 1,
                                   last_shot_score := st.score }) ∧
    (st.last_shot_score = 50 → 50 ≤ st.score → st.score < 100 → shotBonusStep st = st) := by
  refine ⟨fun h0 hgt => ?_, fun hn => ?_, fun h50 hl => ?_, fun hl h1 h2 => ?_⟩
  · have hln : 0 ≤ Int.tdiv st.last_shot_score 50 := Int.tdiv_nonneg h0 (by norm_num)
    have hpos : st.score > 0 := by
      by_contra hs
      push_neg at hs
      have : Int.tdiv st.score 50 ≤ 0 := by
        have := Int.tdiv_nonneg (a := -st.score) (b := 50) (by omega) (by norm_num)
        rw [Int.neg_tdiv] at this
        omega
      omega
    rw [shotBonusStep, if_pos ⟨hpos, hgt⟩]
  · rw [shotBonusStep, if_neg]
    rintro ⟨-, h⟩
    exact hn h
  · have : Int.tdiv st.score 50 = 1 := by rw [h50]; decide
    rw [shotBonusStep, if_pos ⟨by omega, by omega⟩]
  · have hs : Int.tdiv st.score 50 = 1 := by
      rw [Int.tdiv_eq_ediv (by omega) (by norm_num)]
      omega
    have hl50 : Int.tdiv st.last_shot_score 50 = 1 := by rw [hl]; decide
    rw [shotBonusStep, if_neg]
    rintro ⟨-, h⟩
    omega

/-- Claim C3 witness: crossing to score 50 with a recorded score of 49 grants
exactly one shot (3 → 4) and records 50; at score 99 with recorded score 50
nothing is granted. -/
theorem ammo_bonus_every_50_witness :
    shotBonusStep { baseState with score := 50, last_shot_score := 49 } =
      { { baseState with score := 50, last_shot_score := 49 } with
          available_shots := 4, last_shot_score := 50 } ∧
    shotBonusStep { baseState with score := 99, last_shot_score := 50 } =
      { baseState with score := 99, last_shot_score := 50 } := by
  constructor
  · have h := (ammo_bonus_every_50 { baseState with score := 50, last_shot_score := 49 }).2.2.1
      rfl (by decide)
    simpa [baseState, game_state_create] using h
  · exact (ammo_bonus_every_50 { baseState with score := 99, last_shot_score := 50 }).2.2.2
      rfl (by norm_num) (by norm_num)

/-- Claim C7: with a connected client, a receive error or a zero/negative
byte count makes `bridge_receive_action` mark the bridge disconnected and
return `-2`, and the controller-driven iterate step, on `-2`, ends the run
at once (`success`, not `failure`), leaving the game state untouched and the
bridge disconnected with no reconnection attempt. -/
theorem bridge_disconnect_stops_run (sq : ℚ → ℚ) (rs : List (ℚ × ℚ × ℚ))
    (b : GameBridge) (bytes act : ℤ) (st : GameState) (dt spd : ℚ)
    (a0 : List Asteroid) (p0 : List Projectile) (sendOk : Bool) :
    b.connected = true → bytes ≤ 0 →
    bridge_receive_action b bytes act = ({ connected := false }, -2) ∧
    appIterateRl sq rs b bytes act st dt spd a0 p0 sendOk =
      (AppResult.success, { connected := false }, st) := by
  intro hc hb
  have h1 : bridge_receive_action b bytes act = ({ connected := false }, -2) := by
    rw [bridge_receive_action, if_neg (by simp [hc]), if_pos hb]
  refine ⟨h1, ?_⟩
  rw [appIterateRl, h1]
  norm_num

/-- Claim C7 witness: a concrete zero-byte receive on a connected bridge
yields `-2` and the iterate step stops the run with the state unchanged. -/
theorem bridge_disconnect_stops_run_witness :
    bridge_receive_action { connected := true } 0 7 = ({ connected := false }, -2) ∧
    appIterateRl (fun _ => 0) [] { connected := true } 0 7 baseState (1/60) 1 [] [] true =
      (AppResult.success, { connected := false }, baseState) :=
  bridge_disconnect_stops_run (fun _ => 0) [] { connected := true } 0 7 baseState (1/60) 1 [] []
    true rfl (by norm_num)

/-- Claim C1 (amended): the reward of a controller-driven tick equals
(+1 if not terminal) + (−100 if the post-tick state is terminal, whether it
became terminal this tick or was already terminal) + (10 × the positive
score delta since the previously recorded score); in particular a tick
ending at score 10 with terminal false from recorded score 0 yields 101, and
a terminal post-tick state with no score delta yields −100. -/
theorem reward_per_tick_formula (sq : ℚ → ℚ) (rs : List (ℚ × ℚ × ℚ))
    (st : GameState) (action : ℤ) (dt : ℚ) :
    ((rlTick sq rs st action dt).1 =
      (if !(game_state_update sq rs (game_state_apply_rl_action st action) dt).game_over
         then (1 : ℚ) else 0) +
      (if (game_state_update sq rs (game_state_apply_rl_action st action) dt).game_over
         then (-100 : ℚ) else 0) +
      (if 0 < (game_state_update sq rs (game_state_apply_rl_action st action) dt).score
             - st.prev_score
         then (((game_state_update sq rs (game_state_apply_rl_action st action) dt).score
             - st.prev_score : ℤ) : ℚ) * 10 else 0)) ∧
    ((game_state_update sq rs (game_state_apply_rl_action st action) dt).game_over = false →
      (game_state_update sq rs (game_state_apply_rl_action st action) dt).score = 10 →
      st.prev_score = 0 →
      (rlTick sq rs st action dt).1 = 101) ∧
    ((game_state_update sq rs (game_state_apply_rl_action st action) dt).game_over = true →
      (game_state_update sq rs (game_state_apply_rl_action st action) dt).score = st.prev_score →
      (rlTick sq rs st action dt).1 = -100) := by
  have hprev : (game_state_update sq rs (game_state_apply_rl_action st action) dt).prev_score
      = st.prev_score := by
    rw [game_state_update_prev_score]
    rfl
  have h0 : (rlTick sq rs st action dt).1 =
      (game_state_calculate_reward
        (game_state_update sq rs (game_state_apply_rl_action st action) dt)).1 := rfl
  have hmain : (rlTick sq rs st action dt).1 =
      (if !(game_state_update sq rs (game_state_apply_rl_action st action) dt).game_over
         then (1 : ℚ) else 0) +
      (if (game_state_update sq rs (game_state_apply_rl_action st action) dt).game_over
         then (-100 : ℚ) else 0) +
      (if 0 < (game_state_update sq rs (game_state_apply_rl_action st action) dt).score
             - st.prev_score
         then (((game_state_update sq rs (game_state_apply_rl_action st action) dt).score
             - st.prev_score : ℤ) : ℚ) * 10 else 0) := by
    rw [h0, game_state_calculate_reward]
    simp only [hprev]
    cases hgo : (game_state_update sq rs (game_state_apply_rl_action st action) dt).game_over <;>
      simp only [hgo, Bool.not_true, Bool.not_false, if_true, if_false] <;>
      split <;> norm_num
  refine ⟨hmain, fun hgo hsc hpv => ?_, fun hgo hsc => ?_⟩
  · rw [hmain, hgo, hsc, hpv]
    norm_num
  · rw [hmain, hgo, hsc]
    norm_num

/-- Claim C1 witness: on a concrete tick destroying one obstacle by
projectile (score 0 → 10, non-terminal) the reward is 101, and on a concrete
already-terminal tick with no score change it is −100. -/
theorem reward_per_tick_formula_witness :
    (rlTick (fun _ => 0) [] shootState 4 0).1 = 101 ∧
    (rlTick (fun _ => 0) [] termState 4 (1/60)).1 = -100 := by
  constructor
  · refine (reward_per_tick_formula (fun _ => 0) [] shootState 4 0).2.1 ?_ ?_ rfl <;>
      norm_num [game_state_update, game_state_apply_rl_action, shootState, baseState,
        game_state_create, starship_init, starship_update, physics_update_entity,
        physics_clamp_entity_position, physics_apply_boundary_constraints,
        updateProjectiles, projMoveSlot, projectile_update, updateAsteroids, astMoveSlot,
        asteroid_update, shotBonusStep, spawnPhase, spawn_rate, spawnCount, spawnLoop,
        collidePhase, collideInner, collidePairBody, projCollidePhase, projCollideStep,
        projAstScan, physics_entities_collide, physics_check_collision,
        physics_entity_to_rectangle, starshipCollisionPhase, liveAst, idleAst, liveProj,
        idleProj, SCREEN_WIDTH, SCREEN_HEIGHT]
  · have hgo : (game_state_apply_rl_action termState 4).game_over = true := rfl
    refine (reward_per_tick_formula (fun _ => 0) [] termState 4 (1/60)).2.2 ?_ ?_
    · rw [game_state_update, if_pos hgo]
      rfl
    · rw [game_state_update, if_pos hgo]
      rfl

/-- Claim C1 counterexample: on a tick whose starting state is already
terminal the code returns −100 whereas the claim's formula (−100 only on the
tick that became terminal) gives 0, so the claim as stated fails. -/
theorem reward_terminal_persists_cex :
    (rlTick (fun _ => 0) [] termState 4 (1/60)).1 ≠
      specRewardPerTick termState
        (game_state_update (fun _ => 0) []
          (game_state_apply_rl_action termState 4) (1/60)) := by
  have hgo : (game_state_apply_rl_action termState 4).game_over = true := rfl
  have hupd : game_state_update (fun _ => 0) [] (game_state_apply_rl_action termState 4) (1/60)
      = game_state_apply_rl_action termState 4 := by
    rw [game_state_update, if_pos hgo]
  have hr : (rlTick (fun _ => 0) [] termState 4 (1/60)).1
      = (game_state_calculate_reward (game_state_apply_rl_action termState 4)).1 := by
    rw [rlTick]
    simp only [hupd]
  have h1 : (game_state_apply_rl_action termState 4).prev_score = 0 := rfl
  have h2 : (game_state_apply_rl_action termState 4).score = 0 := rfl
  have h3 : termState.game_over = true := rfl
  have h4 : termState.prev_score = 0 := rfl
  rw [hr, hupd, game_state_calculate_reward, specRewardPerTick]
  rw [hgo, h1, h2, h3, h4]
  norm_num


theorem freshAsteroid_active (st : GameState) (r : ℚ × ℚ × ℚ) :
    (freshAsteroid st r).entity.active = true := rfl

theorem spawn_asteroid_spawn_accumulator (st : GameState) (r : ℚ × ℚ × ℚ) :
    (spawn_asteroid st r).spawn_accumulator = st.spawn_accumulator := by
  rw [spawn_asteroid]
  split
  · rfl
  · split <;> rfl

theorem spawnLoop_spawn_accumulator (n : ℕ) (rs : List (ℚ × ℚ × ℚ)) (st : GameState) :
    (spawnLoop rs n st).spawn_accumulator = st.spawn_accumulator - n := by
  induction n generalizing rs st with
  | zero => simp [spawnLoop]
  | succ n ih =>
    rw [spawnLoop, ih]
    simp only [spawn_asteroid_spawn_accumulator]
    push_cast
    ring

theorem rat_floor_le (q : ℚ) : (Rat.floor q : ℚ) ≤ q := Rat.le_floor.mp le_rfl

theorem rat_lt_floor_add_one (q : ℚ) : q < Rat.floor q + 1 := by
  by_contra h
  push_neg at h
  have h2 : ((Rat.floor q + 1 : ℤ) : ℚ) ≤ q := by exact_mod_cast h
  have := (@Rat.le_floor (Rat.floor q + 1) q).mpr h2
  omega

theorem activeCountA_cons (a : Asteroid) (tl : List Asteroid) :
    activeCountA (a :: tl) = activeCountA tl + if a.entity.active then 1 else 0 := by
  simp only [activeCountA, List.filter_cons]
  split <;> simp

theorem activeCountP_cons (p : Projectile) (tl : List Projectile) :
    activeCountP (p :: tl) = activeCountP tl + if p.entity.active then 1 else 0 := by
  simp only [activeCountP, List.filter_cons]
  split <;> simp

theorem activeCountA_nonneg (l : List Asteroid) : 0 ≤ activeCountA l := by
  simp [activeCountA]

theorem activeCountA_le_length (l : List Asteroid) : activeCountA l ≤ l.length := by
  simp only [activeCountA]
  exact_mod_cast List.length_filter_le _ l

theorem replaceFirstInactiveA_spec (l : List Asteroid) (fresh : Asteroid)
    (hf : fresh.entity.active = true) :
    (replaceFirstInactiveA l fresh = none ∧ activeCountA l = l.length) ∨
    (∃ l2, replaceFirstInactiveA l fresh = some l2 ∧
      activeCountA l2 = activeCountA l + 1 ∧ l2.length = l.length) := by
  induction l with
  | nil => left; simp [replaceFirstInactiveA, activeCountA]
  | cons a tl ih =>
    by_cases ha : a.entity.active = true
    · rcases ih with ⟨h1, h2⟩ | ⟨l2, h1, h2, h3⟩
      · left
        constructor
        · simp [replaceFirstInactiveA, ha, h1]
        · rw [activeCountA_cons, if_pos ha, h2]
          simp
      · right
        refine ⟨a :: l2, ?_, ?_, ?_⟩
        · simp [replaceFirstInactiveA, ha, h1]
        · rw [activeCountA_cons, if_pos ha, activeCountA_cons, if_pos ha, h2]
        · simp [h3]
    · right
      refine ⟨fresh :: tl, ?_, ?_, ?_⟩
      · simp [replaceFirstInactiveA, ha]
      · rw [activeCountA_cons, if_pos hf, activeCountA_cons, if_neg ha]
        omega
      · simp

theorem spawn_asteroid_asteroids_length (st : GameState) (r : ℚ × ℚ × ℚ) :
    (spawn_asteroid st r).asteroids.length = st.asteroids.length := by
  rw [spawn_asteroid]
  split
  · rfl
  · rcases replaceFirstInactiveA_spec st.asteroids (freshAsteroid st r)
        (freshAsteroid_active st r) with ⟨h1, -⟩ | ⟨l2, h1, -, h3⟩
    · rw [h1]
    · rw [h1]
      simpa using h3

theorem spawn_asteroid_success (st : GameState) (r : ℚ × ℚ × ℚ)
    (hInv : st.asteroid_count = activeCountA st.asteroids)
    (hlt : activeCountA st.asteroids < st.asteroids.length)
    (hmax : st.asteroid_count < MAX_ASTEROIDS) :
    activeCountA (spawn_asteroid st r).asteroids = activeCountA st.asteroids + 1 ∧
    (spawn_asteroid st r).asteroid_count = st.asteroid_count + 1 := by
  rw [spawn_asteroid, if_neg (by omega)]
  rcases replaceFirstInactiveA_spec st.asteroids (freshAsteroid st r)
      (freshAsteroid_active st r) with ⟨h1, h2⟩ | ⟨l2, h1, h2, h3⟩
  · omega
  · rw [h1]
    exact ⟨h2, rfl⟩

theorem spawn_asteroid_inv (st : GameState) (r : ℚ × ℚ × ℚ)
    (hInv : st.asteroid_count = activeCountA st.asteroids) :
    (spawn_asteroid st r).asteroid_count = activeCountA (spawn_asteroid st r).asteroids := by
  rw [spawn_asteroid]
  split
  · exact hInv
  · rcases replaceFirstInactiveA_spec st.asteroids (freshAsteroid st r)
        (freshAsteroid_active st r) with ⟨h1, h2⟩ | ⟨l2, h1, h2, h3⟩
    · rw [h1]
      exact hInv
    · rw [h1]
      simp only [h2]
      omega

theorem spawnLoop_capacity (n : ℕ) (rs : List (ℚ × ℚ × ℚ)) (st : GameState)
    (hInv : st.asteroid_count = activeCountA st.asteroids)
    (hlen : st.asteroids.length = 50)
    (hcap : activeCountA st.asteroids + n ≤ 50) :
    activeCountA (spawnLoop rs n st).asteroids = activeCountA st.asteroids + n := by
  induction n generalizing rs st with
  | zero => simp [spawnLoop]
  | succ n ih =>
    rw [spawnLoop]
    push_cast at hcap
    have hmax : st.asteroid_count < MAX_ASTEROIDS := by
      rw [hInv, MAX_ASTEROIDS]
      omega
    have hlt : activeCountA st.asteroids < st.asteroids.length := by
      rw [hlen]
      omega
    have hsucc := spawn_asteroid_success st (rs.headD ⟨0, 0, 0⟩) hInv hlt hmax
    have hinv1 : (spawn_asteroid st (rs.headD ⟨0, 0, 0⟩)).asteroid_count =
        activeCountA (spawn_asteroid st (rs.headD ⟨0, 0, 0⟩)).asteroids :=
      spawn_asteroid_inv st _ hInv
    have hlen1 : (spawn_asteroid st (rs.headD ⟨0, 0, 0⟩)).asteroids.length = 50 :=
      (spawn_asteroid_asteroids_length st _).trans hlen
    have hcap1 : activeCountA (spawn_asteroid st (rs.headD ⟨0, 0, 0⟩)).asteroids + n ≤ 50 := by
      rw [hsucc.1]
      omega
    have hstep := ih rs.tail
      { spawn_asteroid st (rs.headD ⟨0, 0, 0⟩) with
          spawn_accumulator := (spawn_asteroid st (rs.headD ⟨0, 0, 0⟩)).spawn_accumulator - 1 }
      hinv1 hlen1 hcap1
    rw [hstep]
    have : activeCountA
        ({ spawn_asteroid st (rs.headD ⟨0, 0, 0⟩) with
            spawn_accumulator := (spawn_asteroid st (rs.headD ⟨0, 0, 0⟩)).spawn_accumulator - 1 }
          : GameState).asteroids
        = activeCountA (spawn_asteroid st (rs.headD ⟨0, 0, 0⟩)).asteroids := rfl
    rw [this, hsucc.1]
    push_cast
    ring

/-- Claim C2: the spawn rate equals `0.5 + score/100` capped at 2.0 (exactly
2.0 for score ≥ 150); the accumulator gains `dt × rate`; the while loop
subtracts exactly 1.0 per pass and leaves the accumulator in `[0, 1)`
(when it was nonnegative), and each pass attempts one spawn, so with room in
the pool the live obstacle count goes up by one per unit crossed — several
in a single slow tick. -/
theorem spawn_scheduler_spec :
    (∀ s : ℤ, spawn_rate s = min (1/2 + (s : ℚ)/100) 2) ∧
    (∀ s : ℤ, 150 ≤ s → spawn_rate s = 2) ∧
    (∀ (rs : List (ℚ × ℚ × ℚ)) (st : GameState) (dt : ℚ),
        (spawnPhase rs st dt).spawn_accumulator =
          st.spawn_accumulator + dt * spawn_rate st.score
            - spawnCount (st.spawn_accumulator + dt * spawn_rate st.score)) ∧
    (∀ (rs : List (ℚ × ℚ × ℚ)) (st : GameState) (dt : ℚ),
        0 ≤ st.spawn_accumulator + dt * spawn_rate st.score →
        0 ≤ (spawnPhase rs st dt).spawn_accumulator ∧
        (spawnPhase rs st dt).spawn_accumulator < 1) ∧
    (∀ (rs : List (ℚ × ℚ × ℚ)) (st : GameState) (dt : ℚ),
        st.asteroid_count = activeCountA st.asteroids →
        st.asteroids.length = 50 →
        activeCountA st.asteroids
            + (spawnCount (st.spawn_accumulator + dt * spawn_rate st.score) : ℤ) ≤ 50 →
        activeCountA (spawnPhase rs st dt).asteroids =
          activeCountA st.asteroids
            + spawnCount (st.spawn_accumulator + dt * spawn_rate st.score)) := by
  have hacc : ∀ (rs : List (ℚ × ℚ × ℚ)) (st : GameState) (dt : ℚ),
      (spawnPhase rs st dt).spawn_accumulator =
        st.spawn_accumulator + dt * spawn_rate st.score
          - spawnCount (st.spawn_accumulator + dt * spawn_rate st.score) := by
    intro rs st dt
    simp only [spawnPhase, spawnLoop_spawn_accumulator, spawnCount]
  refine ⟨fun s => ?_, fun s hs => ?_, hacc, fun rs st dt h => ?_, fun rs st dt h1 h2 h3 => ?_⟩
  · simp only [spawn_rate]
    rcases lt_or_le (2 : ℚ) (1/2 + (s : ℚ)/100) with h | h
    · rw [if_pos h, min_eq_right h.le]
    · rw [if_neg (not_lt.mpr h), min_eq_left h]
  · have hc : (150 : ℚ) ≤ (s : ℚ) := by exact_mod_cast hs
    simp only [spawn_rate]
    split
    · rfl
    · rename_i hgt
      push_neg at hgt
      have : (2 : ℚ) ≤ 1/2 + (s : ℚ)/100 := by linarith
      linarith
  · rw [hacc rs st dt]
    set acc := st.spawn_accumulator + dt * spawn_rate st.score with hdef
    have hfl : 0 ≤ Rat.floor acc := Rat.le_floor.mpr (by exact_mod_cast h)
    have hcast : ((spawnCount acc : ℕ) : ℚ) = ((Rat.floor acc : ℤ) : ℚ) := by
      rw [spawnCount]
      exact_mod_cast congrArg (fun z : ℤ => (z : ℚ)) (Int.toNat_of_nonneg hfl)
    rw [hcast]
    have hle := rat_floor_le acc
    have hlt := rat_lt_floor_add_one acc
    constructor <;> push_cast at hlt ⊢ <;> linarith
  · simp only [spawnPhase]
    exact spawnLoop_capacity _ rs _ h1 h2 (by exact_mod_cast h3)

/-- Claim C2 witness: a concrete slow tick (`dt = 5`, accumulator 1/2,
score 0) crosses 1.0 three times: three obstacles spawn in one tick and the
accumulator ends at 0. -/
theorem spawn_scheduler_spec_witness :
    spawn_rate 150 = 2 ∧
    (spawnPhase [] slowTickState 5).spawn_accumulator = 0 ∧
    (0 ≤ (spawnPhase [] slowTickState 5).spawn_accumulator ∧
      (spawnPhase [] slowTickState 5).spawn_accumulator < 1) ∧
    activeCountA (spawnPhase [] slowTickState 5).asteroids = 3 := by
  obtain ⟨h1, h2, h3, h4, h5⟩ := spawn_scheduler_spec
  have hacc3 : slowTickState.spawn_accumulator + 5 * spawn_rate slowTickState.score = 3 := by
    norm_num [slowTickState, baseState, game_state_create, spawn_rate]
  have hspc : spawnCount (3 : ℚ) = 3 := rfl
  have hcnt : activeCountA slowTickState.asteroids = 0 := by decide
  refine ⟨h2 150 (by norm_num), ?_, h4 [] slowTickState 5 (by rw [hacc3]; norm_num), ?_⟩
  · rw [h3 [] slowTickState 5, hacc3, hspc]
    norm_num
  · rw [h5 [] slowTickState 5 (by decide) (by decide) (by rw [hacc3, hspc, hcnt]; norm_num)]
    rw [hacc3, hspc, hcnt]
    norm_num


/-- Claim C4: for an overlapping active pair with distinct positions
(`d > 0`, where `d` is the value `sqrtf` returned for the squared position
difference, and both asteroids have equal size in this program, so the
position-difference normal is the center-to-center normal) approaching along
the normal (`dvn < 0`), the response reverses the sign of the
normal-relative velocity while each obstacle keeps its tangential velocity
component; and when the distance is exactly zero the pair is left untouched
this tick. -/
theorem asteroid_bounce_normal (sq : ℚ → ℚ) (ai aj : Asteroid) (dx0 dy0 : ℚ)
    (hdx : dx0 = aj.entity.position.x - ai.entity.position.x)
    (hdy : dy0 = aj.entity.position.y - ai.entity.position.y) :
    (∀ d : ℚ, d = sq (dx0 * dx0 + dy0 * dy0) → 0 < d → d * d = dx0 * dx0 + dy0 * dy0 →
      physics_entities_collide ai.entity aj.entity = true →
      velAlong ⟨aj.entity.velocity.x - ai.entity.velocity.x,
                aj.entity.velocity.y - ai.entity.velocity.y⟩ dx0 dy0 d < 0 →
      (velAlong ⟨(collidePairBody sq ai aj).2.entity.velocity.x
                   - (collidePairBody sq ai aj).1.entity.velocity.x,
                 (collidePairBody sq ai aj).2.entity.velocity.y
                   - (collidePairBody sq ai aj).1.entity.velocity.y⟩ dx0 dy0 d
         = -velAlong ⟨aj.entity.velocity.x - ai.entity.velocity.x,
                      aj.entity.velocity.y - ai.entity.velocity.y⟩ dx0 dy0 d) ∧
      velPerp (collidePairBody sq ai aj).1.entity.velocity dx0 dy0 d
        = velPerp ai.entity.velocity dx0 dy0 d ∧
      velPerp (collidePairBody sq ai aj).2.entity.velocity dx0 dy0 d
        = velPerp aj.entity.velocity dx0 dy0 d) ∧
    (sq (dx0 * dx0 + dy0 * dy0) = 0 → collidePairBody sq ai aj = (ai, aj)) := by
  constructor
  · intro d hd h0 hdd hcol hdvn
    have hdne : d ≠ 0 := ne_of_gt h0
    have hdvn2 : (aj.entity.velocity.x - ai.entity.velocity.x) * (dx0 / d)
        + (aj.entity.velocity.y - ai.entity.velocity.y) * (dy0 / d) < 0 := by
      simpa [velAlong] using hdvn
    have hn : dx0 / d * (dx0 / d) + dy0 / d * (dy0 / d) = 1 := by
      field_simp
      linear_combination (-1 : ℚ) * hdd
    simp only [collidePairBody, hcol, if_true]
    rw [← hdx, ← hdy, ← hd]
    rw [if_pos h0, if_pos hdvn2]
    split
    · refine ⟨?_, ?_, ?_⟩
      · simp only [velAlong]
        linear_combination (-2 * ((aj.entity.velocity.x - ai.entity.velocity.x) * (dx0 / d)
          + (aj.entity.velocity.y - ai.entity.velocity.y) * (dy0 / d))) * hn
      · simp only [velPerp]
        ring
      · simp only [velPerp]
        ring
    · refine ⟨?_, ?_, ?_⟩
      · simp only [velAlong]
        linear_combination (-2 * ((aj.entity.velocity.x - ai.entity.velocity.x) * (dx0 / d)
          + (aj.entity.velocity.y - ai.entity.velocity.y) * (dy0 / d))) * hn
      · simp only [velPerp]
        ring
      · simp only [velPerp]
        ring
  · intro hz
    rw [collidePairBody]
    by_cases hcol : physics_entities_collide ai.entity aj.entity = true
    · simp only [hcol, if_true]
      rw [← hdx, ← hdy, hz]
      rw [if_neg (lt_irrefl 0)]
    · rw [if_neg hcol]

/-- Claim C4 witness: on the concrete 3-4-5 pair the normal-relative
velocity flips from −14/5 to +14/5 and both tangential components are
unchanged. -/
theorem asteroid_bounce_normal_witness :
    velAlong ⟨(collidePairBody sqW aiW ajW).2.entity.velocity.x
                - (collidePairBody sqW aiW ajW).1.entity.velocity.x,
              (collidePairBody sqW aiW ajW).2.entity.velocity.y
                - (collidePairBody sqW aiW ajW).1.entity.velocity.y⟩ 3 4 5 = 14/5 ∧
    velPerp (collidePairBody sqW aiW ajW).1.entity.velocity 3 4 5
      = velPerp aiW.entity.velocity 3 4 5 ∧
    velPerp (collidePairBody sqW aiW ajW).2.entity.velocity 3 4 5
      = velPerp ajW.entity.velocity 3 4 5 := by
  have h := (asteroid_bounce_normal sqW aiW ajW 3 4
      (by norm_num [aiW, ajW, liveAst, idleAst])
      (by norm_num [aiW, ajW, liveAst, idleAst])).1 5
    (by norm_num [sqW])
    (by norm_num)
    (by norm_num)
    (by norm_num [physics_entities_collide, physics_check_collision,
      physics_entity_to_rectangle, aiW, ajW, liveAst, idleAst])
    (by norm_num [velAlong, aiW, ajW, liveAst, idleAst])
  refine ⟨?_, h.2.1, h.2.2⟩
  rw [h.1]
  norm_num [velAlong, aiW, ajW, liveAst, idleAst]


theorem projAstScan_first (p : Entity) (l : List Asteroid) (j : ℕ) (hj : j < l.length)
    (hact : (l.get ⟨j, hj⟩).entity.active = true)
    (hcol : physics_entities_collide p (l.get ⟨j, hj⟩).entity = true)
    (hmin : ∀ k (hk : k < j),
      ¬((l.get ⟨k, lt_trans hk hj⟩).entity.active = true ∧
        physics_entities_collide p (l.get ⟨k, lt_trans hk hj⟩).entity = true)) :
    projAstScan p l = some (l.set j { l.get ⟨j, hj⟩ with entity.active := false }) := by
  induction l generalizing j with
  | nil => exact absurd hj (by simp)
  | cons a tl ih =>
    cases j with
    | zero =>
      simp only [List.get] at hact hcol
      rw [projAstScan, if_neg (by simp [hact]), if_pos hcol]
      simp [List.set]
    | succ j =>
      have hfirst := hmin 0 (Nat.succ_pos j)
      simp only [List.get] at hfirst hact hcol
      have hj2 : j < tl.length := by simpa using hj
      have hstep := ih j hj2 hact hcol (fun k hk => by
        have := hmin (k + 1) (by omega)
        simpa [List.get] using this)
      by_cases ha : a.entity.active = true
      · have hnc : ¬(physics_entities_collide p a.entity = true) := fun hc =>
          hfirst ⟨ha, hc⟩
        rw [projAstScan, if_neg (by simp [ha]), if_neg hnc, hstep]
        simp [List.set]
      · rw [projAstScan, if_pos (by simp [Bool.not_eq_true] at ha ⊢; exact ha), hstep]
        simp [List.set]

/-- Claim C5: an active projectile retires exactly the first active
overlapping obstacle in pool-scan order — that slot alone is deactivated
(`List.set` at its index), the projectile is deactivated, both live counts
drop by one and the score gains exactly 10; with no overlapping active
obstacle nothing changes for that projectile. -/
theorem projectile_first_match (p : Projectile) (l : List Asteroid) (pc ac sc : ℤ)
    (j : ℕ) (hj : j < l.length) :
    (p.entity.active = true →
      (l.get ⟨j, hj⟩).entity.active = true →
      physics_entities_collide p.entity (l.get ⟨j, hj⟩).entity = true →
      (∀ k (hk : k < j),
        ¬((l.get ⟨k, lt_trans hk hj⟩).entity.active = true ∧
          physics_entities_collide p.entity (l.get ⟨k, lt_trans hk hj⟩).entity = true)) →
      projCollideStep p l pc ac sc =
        ({ p with entity.active := false },
         l.set j { l.get ⟨j, hj⟩ with entity.active := false },
         pc - 1, ac - 1, sc + 10)) ∧
    (projAstScan p.entity l = none → projCollideStep p l pc ac sc = (p, l, pc, ac, sc)) := by
  constructor
  · intro hp hact hcol hmin
    rw [projCollideStep, if_neg (by simp [hp]),
      projAstScan_first p.entity l j hj hact hcol hmin]
  · intro hnone
    rw [projCollideStep]
    by_cases hp : (!p.entity.active) = true
    · rw [if_pos hp]
    · rw [if_neg hp, hnone]

/-- Claim C5 witness: among three active obstacles of which the second and
third overlap the projectile, only the second is destroyed, counts drop from
(1, 3) to (0, 2) and the score goes up by 10. -/
theorem projectile_first_match_witness :
    projCollideStep projW [astNearW, astHitW, astHit2W] 1 3 0 =
      ({ projW with entity.active := false },
       [astNearW, { astHitW with entity.active := false }, astHit2W], 0, 2, 10) := by
  have h := (projectile_first_match projW [astNearW, astHitW, astHit2W] 1 3 0 1 (by norm_num)).1
    rfl (by norm_num [astHitW, liveAst, idleAst])
    (by norm_num [physics_entities_collide, physics_check_collision,
      physics_entity_to_rectangle, projW, astHitW, liveAst, idleAst, liveProj, idleProj])
    (fun k hk => by
      have hk0 : k = 0 := by omega
      subst hk0
      norm_num [physics_entities_collide, physics_check_collision,
        physics_entity_to_rectangle, projW, astNearW, liveAst, idleAst, liveProj, idleProj])
  rw [h]
  norm_num [List.set]


theorem projMoveSlot_count (dt : ℚ) (p : Projectile) :
    (if (projMoveSlot dt p).1.entity.active then (1 : ℤ) else 0)
      = (if p.entity.active then (1 : ℤ) else 0) - (projMoveSlot dt p).2 := by
  rw [projMoveSlot]
  by_cases hp : p.entity.active = true
  · rw [if_pos hp]
    by_cases hx : (projectile_update p dt).entity.position.x > SCREEN_WIDTH
    · rw [if_pos hx]
      simp [hp]
    · rw [if_neg hx]
      have : (projectile_update p dt).entity.active = p.entity.active := by
        rw [projectile_update]
        split
        · rfl
        · exact physics_update_entity_active p.entity dt
      simp [this, hp]
  · rw [if_neg hp]
    simp [hp]

theorem updateProjectiles_count (dt : ℚ) (l : List Projectile) :
    activeCountP (updateProjectiles dt l).1 = activeCountP l - (updateProjectiles dt l).2 := by
  induction l with
  | nil => simp [updateProjectiles, activeCountP]
  | cons p tl ih =>
    rw [updateProjectiles]
    rw [activeCountP_cons, activeCountP_cons, ih, projMoveSlot_count]
    ring

theorem astMoveSlot_count (dt : ℚ) (a : Asteroid) :
    (if (astMoveSlot dt a).1.entity.active then (1 : ℤ) else 0)
      = (if a.entity.active then (1 : ℤ) else 0) - (astMoveSlot dt a).2 := by
  rw [astMoveSlot]
  by_cases ha : a.entity.active = true
  · rw [if_pos ha]
    by_cases hx : (asteroid_update a dt).entity.position.x < -(asteroid_update a dt).size
    · rw [if_pos hx]
      simp [ha]
    · rw [if_neg hx]
      simp [asteroid_update_active, ha]
  · rw [if_neg ha]
    simp [ha]

theorem updateAsteroids_count (dt : ℚ) (l : List Asteroid) :
    activeCountA (updateAsteroids dt l).1 = activeCountA l - (updateAsteroids dt l).2 := by
  induction l with
  | nil => simp [updateAsteroids, activeCountA]
  | cons a tl ih =>
    rw [updateAsteroids]
    rw [activeCountA_cons, activeCountA_cons, ih, astMoveSlot_count]
    ring

theorem collidePairBody_active (sq : ℚ → ℚ) (ai aj : Asteroid) :
    (collidePairBody sq ai aj).1.entity.active = ai.entity.active ∧
    (collidePairBody sq ai aj).2.entity.active = aj.entity.active := by
  simp only [collidePairBody]
  split
  · split
    · split
      · split <;> exact ⟨rfl, rfl⟩
      · exact ⟨rfl, rfl⟩
    · exact ⟨rfl, rfl⟩
  · exact ⟨rfl, rfl⟩

theorem collideInner_counts (sq : ℚ → ℚ) (ai : Asteroid) (l : List Asteroid) :
    (collideInner sq ai l).1.entity.active = ai.entity.active ∧
    activeCountA (collideInner sq ai l).2 = activeCountA l := by
  induction l generalizing ai with
  | nil => exact ⟨rfl, rfl⟩
  | cons aj tl ih =>
    rw [collideInner]
    by_cases hj : (!aj.entity.active) = true
    · rw [if_pos hj]
      refine ⟨(ih ai).1, ?_⟩
      rw [activeCountA_cons, activeCountA_cons, (ih ai).2]
    · rw [if_neg hj]
      have hpair := collidePairBody_active sq ai aj
      refine ⟨((ih _).1).trans hpair.1, ?_⟩
      rw [activeCountA_cons, activeCountA_cons, (ih _).2, hpair.2]

theorem collidePhase_count (sq : ℚ → ℚ) (l : List Asteroid) :
    activeCountA (collidePhase sq l) = activeCountA l := by
  induction l using collidePhase.induct sq with
  | case1 => rw [collidePhase]
  | case2 ai tl h ih =>
    rw [collidePhase, if_pos h, activeCountA_cons, activeCountA_cons, ih]
  | case3 ai tl h ih =>
    rw [collidePhase, if_neg h, activeCountA_cons, activeCountA_cons, ih,
      (collideInner_counts sq ai tl).1, (collideInner_counts sq ai tl).2]

theorem projAstScan_count (p : Entity) (l : List Asteroid) (l2 : List Asteroid)
    (h : projAstScan p l = some l2) :
    activeCountA l2 = activeCountA l - 1 := by
  induction l generalizing l2 with
  | nil => simp [projAstScan] at h
  | cons a tl ih =>
    rw [projAstScan] at h
    by_cases ha : (!a.entity.active) = true
    · rw [if_pos ha] at h
      rcases Option.map_eq_some'.mp h with ⟨tl2, htl, rfl⟩
      rw [activeCountA_cons, activeCountA_cons, ih tl2 htl]
      ring
    · rw [if_neg ha] at h
      by_cases hc : physics_entities_collide p a.entity = true
      · rw [if_pos hc] at h
        cases h
        rw [activeCountA_cons, activeCountA_cons]
        simp only [Bool.not_eq_true'] at ha
        simp [Bool.not_eq_true] at ha ⊢
        rw [if_pos ha]
        simp
      · rw [if_neg hc] at h
        rcases Option.map_eq_some'.mp h with ⟨tl2, htl, rfl⟩
        rw [activeCountA_cons, activeCountA_cons, ih tl2 htl]
        ring

theorem projCollideStep_count (p : Projectile) (l : List Asteroid) (pc ac sc : ℤ) :
    (projCollideStep p l pc ac sc).2.2.1
        - (if (projCollideStep p l pc ac sc).1.entity.active then (1 : ℤ) else 0)
      = pc - (if p.entity.active then (1 : ℤ) else 0) ∧
    (projCollideStep p l pc ac sc).2.2.2.1 - activeCountA (projCollideStep p l pc ac sc).2.1
      = ac - activeCountA l := by
  rw [projCollideStep]
  by_cases hp : (!p.entity.active) = true
  · rw [if_pos hp]
    exact ⟨rfl, rfl⟩
  · rw [if_neg hp]
    cases hscan : projAstScan p.entity l with
    | none => exact ⟨rfl, rfl⟩
    | some l2 =>
      constructor
      · simp only [Bool.not_eq_true'] at hp
        simp [hp]
      · simp only
        rw [projAstScan_count p.entity l l2 hscan]
        ring

theorem projCollidePhase_count (ps : List Projectile) (asts : List Asteroid) (pc ac sc : ℤ) :
    (projCollidePhase ps asts pc ac sc).2.2.1
        - activeCountP (projCollidePhase ps asts pc ac sc).1
      = pc - activeCountP ps ∧
    (projCollidePhase ps asts pc ac sc).2.2.2.1
        - activeCountA (projCollidePhase ps asts pc ac sc).2.1
      = ac - activeCountA asts := by
  induction ps generalizing asts pc ac sc with
  | nil =>
    rw [projCollidePhase]
    exact ⟨by simp [activeCountP], rfl⟩
  | cons p tl ih =>
    simp only [projCollidePhase]
    have hstep := projCollideStep_count p asts pc ac sc
    have hrec := ih (projCollideStep p asts pc ac sc).2.1
      (projCollideStep p asts pc ac sc).2.2.1
      (projCollideStep p asts pc ac sc).2.2.2.1
      (projCollideStep p asts pc ac sc).2.2.2.2
    refine ⟨?_, ?_⟩
    · rw [activeCountP_cons, activeCountP_cons]
      omega
    · omega

theorem spawn_asteroid_projectiles (st : GameState) (r : ℚ × ℚ × ℚ) :
    (spawn_asteroid st r).projectiles = st.projectiles ∧
    (spawn_asteroid st r).projectile_count = st.projectile_count := by
  rw [spawn_asteroid]
  split
  · exact ⟨rfl, rfl⟩
  · split <;> exact ⟨rfl, rfl⟩

theorem spawn_asteroid_countInv (st : GameState) (r : ℚ × ℚ × ℚ) (h : CountInv st) :
    CountInv (spawn_asteroid st r) := by
  refine ⟨spawn_asteroid_inv st r h.1, ?_⟩
  rw [(spawn_asteroid_projectiles st r).1, (spawn_asteroid_projectiles st r).2]
  exact h.2

theorem spawnLoop_countInv (n : ℕ) (rs : List (ℚ × ℚ × ℚ)) (st : GameState)
    (h : CountInv st) : CountInv (spawnLoop rs n st) := by
  induction n generalizing rs st with
  | zero => exact h
  | succ n ih =>
    rw [spawnLoop]
    exact ih rs.tail _ (spawn_asteroid_countInv st _ h)

theorem spawnPhase_countInv (rs : List (ℚ × ℚ × ℚ)) (st : GameState) (dt : ℚ)
    (h : CountInv st) : CountInv (spawnPhase rs st dt) := by
  rw [spawnPhase]
  exact spawnLoop_countInv _ rs _ h

theorem shotBonusStep_countInv (st : GameState) (h : CountInv st) :
    CountInv (shotBonusStep st) := by
  rw [shotBonusStep]
  split
  · exact h
  · exact h

theorem starshipCollisionPhase_countInv (st : GameState) (h : CountInv st) :
    CountInv (starshipCollisionPhase st) := by
  rw [starshipCollisionPhase]
  split
  · exact h
  · exact h

theorem activeCountA_map_deactivate (l : List Asteroid) :
    activeCountA (l.map (fun a => { a with entity.active := false })) = 0 := by
  induction l with
  | nil => rfl
  | cons a tl ih => simpa [activeCountA_cons] using ih

theorem activeCountP_map_deactivate (l : List Projectile) :
    activeCountP (l.map (fun p => { p with entity.active := false })) = 0 := by
  induction l with
  | nil => rfl
  | cons p tl ih => simpa [activeCountP_cons] using ih

theorem replaceFirstInactiveP_spec (l : List Projectile) (fresh : Projectile)
    (hf : fresh.entity.active = true) :
    (replaceFirstInactiveP l fresh = none) ∨
    (∃ l2, replaceFirstInactiveP l fresh = some l2 ∧
      activeCountP l2 = activeCountP l + 1) := by
  induction l with
  | nil => left; rfl
  | cons p tl ih =>
    by_cases hp : p.entity.active = true
    · rcases ih with h1 | ⟨l2, h1, h2⟩
      · left
        simp [replaceFirstInactiveP, hp, h1]
      · right
        refine ⟨p :: l2, ?_, ?_⟩
        · simp [replaceFirstInactiveP, hp, h1]
        · rw [activeCountP_cons, if_pos hp, activeCountP_cons, if_pos hp, h2]
    · right
      refine ⟨fresh :: tl, ?_, ?_⟩
      · simp [replaceFirstInactiveP, hp]
      · rw [activeCountP_cons, if_pos hf, activeCountP_cons, if_neg hp]
        omega

theorem spawn_projectile_countInv (st : GameState) (h : CountInv st) :
    CountInv (spawn_projectile st) := by
  rw [spawn_projectile]
  split
  · exact h
  · split
    · exact h
    · rcases replaceFirstInactiveP_spec st.projectiles (freshProjectile st) rfl with
        h1 | ⟨l2, h1, h2⟩
      · rw [h1]
        exact h
      · rw [h1]
        refine ⟨h.1, ?_⟩
        simp only [h2]
        omega

theorem updProj_state_countInv (s : GameState) (dt : ℚ) (h : CountInv s) :
    CountInv { s with projectiles := (updateProjectiles dt s.projectiles).1,
                      projectile_count := s.projectile_count
                        - (updateProjectiles dt s.projectiles).2 } := by
  refine ⟨h.1, ?_⟩
  show s.projectile_count - (updateProjectiles dt s.projectiles).2 = _
  rw [updateProjectiles_count, h.2]

theorem updAst_state_countInv (s : GameState) (dt : ℚ) (h : CountInv s) :
    CountInv { s with asteroids := (updateAsteroids dt s.asteroids).1,
                      asteroid_count := s.asteroid_count
                        - (updateAsteroids dt s.asteroids).2,
                      score := s.score + (updateAsteroids dt s.asteroids).2 } := by
  refine ⟨?_, h.2⟩
  show s.asteroid_count - (updateAsteroids dt s.asteroids).2 = _
  rw [updateAsteroids_count, h.1]

theorem collide_state_countInv (sq : ℚ → ℚ) (s : GameState) (h : CountInv s) :
    CountInv { s with asteroids := collidePhase sq s.asteroids } := by
  refine ⟨?_, h.2⟩
  show s.asteroid_count = activeCountA (collidePhase sq s.asteroids)
  rw [collidePhase_count, h.1]

theorem projcol_state_countInv (s : GameState) (h : CountInv s) :
    CountInv { s with
      projectiles := (projCollidePhase s.projectiles s.asteroids
        s.projectile_count s.asteroid_count s.score).1,
      asteroids := (projCollidePhase s.projectiles s.asteroids
        s.projectile_count s.asteroid_count s.score).2.1,
      projectile_count := (projCollidePhase s.projectiles s.asteroids
        s.projectile_count s.asteroid_count s.score).2.2.1,
      asteroid_count := (projCollidePhase s.projectiles s.asteroids
        s.projectile_count s.asteroid_count s.score).2.2.2.1,
      score := (projCollidePhase s.projectiles s.asteroids
        s.projectile_count s.asteroid_count s.score).2.2.2.2 } := by
  have hc := projCollidePhase_count s.projectiles s.asteroids
    s.projectile_count s.asteroid_count s.score
  have h1 := h.1
  have h2 := h.2
  refine ⟨?_, ?_⟩
  · show (projCollidePhase s.projectiles s.asteroids
        s.projectile_count s.asteroid_count s.score).2.2.2.1
      = activeCountA (projCollidePhase s.projectiles s.asteroids
        s.projectile_count s.asteroid_count s.score).2.1
    omega
  · show (projCollidePhase s.projectiles s.asteroids
        s.projectile_count s.asteroid_count s.score).2.2.1
      = activeCountP (projCollidePhase s.projectiles s.asteroids
        s.projectile_count s.asteroid_count s.score).1
    omega

theorem game_state_create_countInv (a0 : List Asteroid) (p0 : List Projectile) :
    CountInv (game_state_create a0 p0) := by
  constructor
  · show (0 : ℤ) = activeCountA (a0.map (fun a => { a with entity.active := false }))
    rw [activeCountA_map_deactivate]
  · show (0 : ℤ) = activeCountP (p0.map (fun p => { p with entity.active := false }))
    rw [activeCountP_map_deactivate]

theorem game_state_update_countInv (sq : ℚ → ℚ) (rs : List (ℚ × ℚ × ℚ))
    (st : GameState) (dt : ℚ) (h : CountInv st) :
    CountInv (game_state_update sq rs st dt) := by
  rw [game_state_update]
  split
  · exact h
  · exact starshipCollisionPhase_countInv _
      (projcol_state_countInv _
        (collide_state_countInv sq _
          (spawnPhase_countInv rs _ dt
            (shotBonusStep_countInv _
              (updAst_state_countInv _ dt
                (updProj_state_countInv _ dt h))))))

/-- Claim C6: in every reachable state the obstacle live count equals the
number of obstacle slots with the active flag set and likewise for
projectiles: state creation establishes the invariant and
`game_state_update`, `spawn_asteroid` and `spawn_projectile` each preserve
it. -/
theorem live_count_invariant :
    (∀ (a0 : List Asteroid) (p0 : List Projectile), CountInv (game_state_create a0 p0)) ∧
    (∀ (sq : ℚ → ℚ) (rs : List (ℚ × ℚ × ℚ)) (st : GameState) (dt : ℚ),
      CountInv st → CountInv (game_state_update sq rs st dt)) ∧
    (∀ (st : GameState) (r : ℚ × ℚ × ℚ), CountInv st → CountInv (spawn_asteroid st r)) ∧
    (∀ st : GameState, CountInv st → CountInv (spawn_projectile st)) :=
  ⟨game_state_create_countInv, game_state_update_countInv, spawn_asteroid_countInv,
   spawn_projectile_countInv⟩

/-- Claim C6 witness: the invariant holds on a concrete populated state and
is carried through one full update, one spawn and one shot. -/
theorem live_count_invariant_witness :
    CountInv (game_state_update (fun _ => 0) [] shootState (1/60)) ∧
    CountInv (spawn_asteroid shootState (0, 0, 0)) ∧
    CountInv (spawn_projectile shootState) := by
  refine ⟨live_count_invariant.2.1 (fun _ => 0) [] shootState (1/60) ⟨by decide, by decide⟩,
    live_count_invariant.2.2.1 shootState (0, 0, 0) ⟨by decide, by decide⟩,
    live_count_invariant.2.2.2 shootState ⟨by decide, by decide⟩⟩

end AGame
